import Mathlib

/-!
Verification of the `arcade_aakeedo_kanji` tool layer.

This development is a shallow embedding of the repository's core:

* `models/kanji_api_models.py` and `models/wanikani_api_models.py`
  (pydantic response models) become Lean structures together with
  explicit `parse…` functions (pydantic construction from a decoded
  JSON value) and `dump…` functions (`model_dump(exclude_none=True)`
  serialization, i.e. the object handed to `json.dumps`).
* `http_clients/kanji_api_http_client.py` and
  `http_clients/wanikani_api_http_client.py` become `fetch_…`
  functions.  The outcome of the single HTTP request an invocation
  makes is passed in explicitly as an `HttpOutcome`; every fetch
  function returns the optional parsed result paired with the number
  of outbound HTTP requests it performed (0 or 1).
* `tools/kanji_api_tools.py` and `tools/wakani_api_tools.py` become
  tool functions returning a `ToolResult` (success payload, raised
  `RetryableToolError`, or raised `ToolExecutionError`) paired with
  the outbound request count.

JSON values are modelled by `JVal`; decoded Python JSON numbers that
occur in this API are integers, so only integer numbers are modelled.
Python strings are modelled by Lean `String` (a sequence of code
points, matching Python's `len`/indexing); `str.strip` and
`str.lower` are modelled over the character list, with `str.lower`
restricted to its Basic Latin behaviour (`Char.toLower`), which is
exact on all ASCII inputs such as the category names.
-/

/-- A decoded JSON value (the result of `response.json()`), or an
argument to `json.dumps`. -/
inductive JVal where
  | jnull
  | jbool (b : Bool)
  | jint (n : Int)
  | jstr (s : String)
  | jarr (elems : List JVal)
  | jobj (fields : List (String × JVal))

/-- Is the value a JSON array? (`isinstance(data, list)`). -/
def JVal.isArr : JVal → Bool
  | JVal.jarr _ => true
  | _ => false

/-- Dictionary key lookup on a decoded JSON object's field list. -/
def jLookup (fs : List (String × JVal)) (k : String) : Option JVal :=
  match fs with
  | [] => Option.none
  | (k2, v) :: rest => if k2 = k then some v else jLookup rest k

/-- Accept a JSON string (pydantic `str`; v2 does not coerce non-strings). -/
def asStr : JVal → Option String
  | JVal.jstr s => some s
  | _ => Option.none

/-- Accept a JSON integer (pydantic `int`; booleans are rejected). -/
def asInt : JVal → Option Int
  | JVal.jint n => some n
  | _ => Option.none

/-- Parse every element of a JSON array as a string
(`all(isinstance(item, str) for item in data)` / pydantic `list[str]`). -/
def strList : List JVal → Option (List String)
  | [] => some []
  | v :: rest =>
    match asStr v, strList rest with
    | some s, some ss => some (s :: ss)
    | _, _ => Option.none

/-- Accept a JSON array of strings. -/
def asStrList : JVal → Option (List String)
  | JVal.jarr es => strList es
  | _ => Option.none

/-- JSON array of strings (serialization direction). -/
def jStrArr (ss : List String) : JVal := JVal.jarr (ss.map JVal.jstr)

/-- Required pydantic `str` field. -/
def reqStr (fs : List (String × JVal)) (k : String) : Option String :=
  match jLookup fs k with
  | some v => asStr v
  | Option.none => Option.none

/-- Required pydantic `int` field. -/
def reqInt (fs : List (String × JVal)) (k : String) : Option Int :=
  match jLookup fs k with
  | some v => asInt v
  | Option.none => Option.none

/-- Required pydantic `list[str]` field. -/
def reqStrList (fs : List (String × JVal)) (k : String) : Option (List String) :=
  match jLookup fs k with
  | some v => asStrList v
  | Option.none => Option.none

/-- Optional pydantic `int | None` field with default `None`:
absent or JSON `null` gives `None`; any other non-integer value is a
validation error. -/
def optIntField (fs : List (String × JVal)) (k : String) : Option (Option Int) :=
  match jLookup fs k with
  | Option.none => some Option.none
  | some JVal.jnull => some Option.none
  | some (JVal.jint n) => some (some n)
  | some _ => Option.none

/-- Optional pydantic `str | None` field with default `None`. -/
def optStrField (fs : List (String × JVal)) (k : String) : Option (Option String) :=
  match jLookup fs k with
  | Option.none => some Option.none
  | some JVal.jnull => some Option.none
  | some (JVal.jstr s) => some (some s)
  | some _ => Option.none

/-- Pydantic `list[str]` field with `default_factory=list`: absent
gives `[]`; present values (including `null`) must be string arrays. -/
def defStrList (fs : List (String × JVal)) (k : String) : Option (List String) :=
  match jLookup fs k with
  | Option.none => some []
  | some v => asStrList v

/-- `model_dump(exclude_none=True)` entry for an `int | None` field:
omitted when `None`. -/
def dumpOptIntField (k : String) (v : Option Int) : List (String × JVal) :=
  match v with
  | Option.none => []
  | some n => [(k, JVal.jint n)]

/-- `model_dump(exclude_none=True)` entry for a `str | None` field:
omitted when `None`. -/
def dumpOptStrField (k : String) (v : Option String) : List (String × JVal) :=
  match v with
  | Option.none => []
  | some s => [(k, JVal.jstr s)]

/-- Python `str.strip()` over the character list: drop whitespace
from the front, then from the back. -/
def pyStripList (l : List Char) : List Char :=
  ((l.dropWhile Char.isWhitespace).reverse.dropWhile Char.isWhitespace).reverse

/-- Python `str.strip()`. -/
def pyStrip (s : String) : String := String.mk (pyStripList s.data)

/-- Python `str.lower()` (Basic Latin case mapping). -/
def pyLower (s : String) : String := String.mk (s.data.map Char.toLower)

/-- A caller-supplied Python value for a `str` tool parameter:
a string, `None`, or some other object (carrying its `str()` rendering,
used only inside error-message interpolation). -/
inductive PyVal where
  | str (s : String)
  | noneVal
  | other (rep : String)

/-- Is the value a Python `str`? (`isinstance(v, str)`). -/
def PyVal.isStr : PyVal → Bool
  | PyVal.str _ => true
  | _ => false

/-- Python f-string rendering of the raw argument. -/
def pyRepr (v : PyVal) : String :=
  match v with
  | PyVal.str s => s
  | PyVal.noneVal => "None"
  | PyVal.other rep => rep

/-- `kanji_char.strip() if isinstance(kanji_char, str) else ""` —
the normalization shared by `get_kanji_details`, `get_kanji_by_reading`
and `get_words_for_kanji`. -/
def pyCleanStr (v : PyVal) : String :=
  match v with
  | PyVal.str s => pyStrip s
  | _ => ""

/-- `list_name.strip().lower() if isinstance(list_name, str) else ""` —
the normalization of `get_kanji_list_by_category`. -/
def pyCleanCat (v : PyVal) : String :=
  match v with
  | PyVal.str s => pyLower (pyStrip s)
  | _ => ""

/-- The category-name normalization (trim, then lowercase). -/
def normalizeCategory (s : String) : String := pyLower (pyStrip s)

/-- `KanjiDetailModel` (kanji_api_models.py): detailed information
about a kanji character. -/
structure KanjiDetailModel where
  kanji : String
  grade : Option Int
  stroke_count : Int
  meanings : List String
  kun_readings : List String
  on_readings : List String
  name_readings : List String
  jlpt : Option Int
  unicode : String
  heisig_en : Option String
  freq_mainichi_shinbun : Option Int
  unihan_cjk_compatibility_variant : Option String
  notes : List String
deriving DecidableEq

/-- `KanjiReading` (kanji_api_models.py): kanji sharing a reading. -/
structure KanjiReading where
  reading : String
  main_kanji : List String
  name_kanji : List String
deriving DecidableEq

/-- `Meaning` (kanji_api_models.py): one sense of a word. -/
structure Meaning where
  glosses : List String
deriving DecidableEq

/-- `Variant` (kanji_api_models.py): a written/pronounced variation. -/
structure Variant where
  written : String
  pronounced : Option String
  priorities : List String
deriving DecidableEq

/-- `WordEntry` (kanji_api_models.py): a dictionary entry. -/
structure WordEntry where
  meanings : List Meaning
  variants : List Variant
deriving DecidableEq

/-- `UserData` (wanikani_api_models.py): username and level.  The
pydantic model declares plain `str` and `int` fields with descriptive
text only; it imposes no further constraint. -/
structure UserData where
  username : String
  level : Int
deriving DecidableEq

/-- `UserResponse` (wanikani_api_models.py): the /user envelope. -/
structure UserResponse where
  object : String
  url : String
  data_updated_at : Option String
  data : UserData
deriving DecidableEq

/-- `KanjiDetailModel(**body)`: pydantic validation of the decoded
response body (extra keys ignored, `None` defaults for the optional
fields, empty-list defaults for the `default_factory=list` fields). -/
def parseKanjiDetail (body : JVal) : Option KanjiDetailModel :=
  match body with
  | JVal.jobj fs => do
    let kanji ← reqStr fs "kanji"
    let grade ← optIntField fs "grade"
    let stroke_count ← reqInt fs "stroke_count"
    let meanings ← reqStrList fs "meanings"
    let kun_readings ← defStrList fs "kun_readings"
    let on_readings ← defStrList fs "on_readings"
    let name_readings ← defStrList fs "name_readings"
    let jlpt ← optIntField fs "jlpt"
    let unicode ← reqStr fs "unicode"
    let heisig_en ← optStrField fs "heisig_en"
    let freq_mainichi_shinbun ← optIntField fs "freq_mainichi_shinbun"
    let unihan_cjk_compatibility_variant ← optStrField fs "unihan_cjk_compatibility_variant"
    let notes ← defStrList fs "notes"
    pure { kanji, grade, stroke_count, meanings, kun_readings, on_readings,
           name_readings, jlpt, unicode, heisig_en, freq_mainichi_shinbun,
           unihan_cjk_compatibility_variant, notes }
  | _ => Option.none

/-- Field list of `KanjiDetailModel.model_dump(exclude_none=True)`:
every `None`-valued optional field is omitted; every other field —
including empty lists — is kept, in declaration order. -/
def kanjiDetailFields (m : KanjiDetailModel) : List (String × JVal) :=
  [("kanji", JVal.jstr m.kanji)]
  ++ dumpOptIntField "grade" m.grade
  ++ [("stroke_count", JVal.jint m.stroke_count),
      ("meanings", jStrArr m.meanings),
      ("kun_readings", jStrArr m.kun_readings),
      ("on_readings", jStrArr m.on_readings),
      ("name_readings", jStrArr m.name_readings)]
  ++ dumpOptIntField "jlpt" m.jlpt
  ++ [("unicode", JVal.jstr m.unicode)]
  ++ dumpOptStrField "heisig_en" m.heisig_en
  ++ dumpOptIntField "freq_mainichi_shinbun" m.freq_mainichi_shinbun
  ++ dumpOptStrField "unihan_cjk_compatibility_variant" m.unihan_cjk_compatibility_variant
  ++ [("notes", jStrArr m.notes)]

/-- `KanjiDetailModel.model_dump(exclude_none=True)` as the object
handed to `json.dumps`. -/
def dumpKanjiDetail (m : KanjiDetailModel) : JVal := JVal.jobj (kanjiDetailFields m)

/-- `KanjiReading(**body)`. -/
def parseKanjiReading (body : JVal) : Option KanjiReading :=
  match body with
  | JVal.jobj fs => do
    let reading ← reqStr fs "reading"
    let main_kanji ← reqStrList fs "main_kanji"
    let name_kanji ← reqStrList fs "name_kanji"
    pure { reading, main_kanji, name_kanji }
  | _ => Option.none

/-- `KanjiReading.model_dump(exclude_none=True)` (no optional fields). -/
def dumpKanjiReading (r : KanjiReading) : JVal :=
  JVal.jobj [("reading", JVal.jstr r.reading),
             ("main_kanji", jStrArr r.main_kanji),
             ("name_kanji", jStrArr r.name_kanji)]

/-- Parse each element of a JSON array with the given element parser;
one failing element fails the whole list (pydantic list validation /
the `[WordEntry(**item) for item in response_data]` comprehension). -/
def parseList {α : Type} (p1 : JVal → Option α) : List JVal → Option (List α)
  | [] => some []
  | v :: rest =>
    match p1 v, parseList p1 rest with
    | some a, some xs => some (a :: xs)
    | _, _ => Option.none

/-- Required pydantic field holding a list of sub-models. -/
def reqObjList {α : Type} (p1 : JVal → Option α) (fs : List (String × JVal))
    (k : String) : Option (List α) :=
  match jLookup fs k with
  | some (JVal.jarr es) => parseList p1 es
  | _ => Option.none

/-- `Meaning(**item)`. -/
def parseMeaning (v : JVal) : Option Meaning :=
  match v with
  | JVal.jobj fs => do
    let glosses ← reqStrList fs "glosses"
    pure { glosses }
  | _ => Option.none

/-- `Variant(**item)`. -/
def parseVariant (v : JVal) : Option Variant :=
  match v with
  | JVal.jobj fs => do
    let written ← reqStr fs "written"
    let pronounced ← optStrField fs "pronounced"
    let priorities ← defStrList fs "priorities"
    pure { written, pronounced, priorities }
  | _ => Option.none

/-- `WordEntry(**item)`. -/
def parseWordEntry (v : JVal) : Option WordEntry :=
  match v with
  | JVal.jobj fs => do
    let meanings ← reqObjList parseMeaning fs "meanings"
    let variants ← reqObjList parseVariant fs "variants"
    pure { meanings, variants }
  | _ => Option.none

/-- `Meaning.model_dump(exclude_none=True)`. -/
def dumpMeaning (m : Meaning) : JVal := JVal.jobj [("glosses", jStrArr m.glosses)]

/-- Field list of `Variant.model_dump(exclude_none=True)`:
`pronounced` omitted when `None`. -/
def variantFields (v : Variant) : List (String × JVal) :=
  [("written", JVal.jstr v.written)]
  ++ dumpOptStrField "pronounced" v.pronounced
  ++ [("priorities", jStrArr v.priorities)]

/-- `Variant.model_dump(exclude_none=True)`. -/
def dumpVariant (v : Variant) : JVal := JVal.jobj (variantFields v)

/-- `WordEntry.model_dump(exclude_none=True)` (recursing into the
nested models, as pydantic does). -/
def dumpWordEntry (w : WordEntry) : JVal :=
  JVal.jobj [("meanings", JVal.jarr (w.meanings.map dumpMeaning)),
             ("variants", JVal.jarr (w.variants.map dumpVariant))]

/-- `UserData(**data)`: plain `str`/`int` validation, extra ignored. -/
def parseUserData (v : JVal) : Option UserData :=
  match v with
  | JVal.jobj fs => do
    let username ← reqStr fs "username"
    let level ← reqInt fs "level"
    pure { username, level }
  | _ => Option.none

/-- `UserData.model_dump()` (no optional fields). -/
def dumpUserData (u : UserData) : JVal :=
  JVal.jobj [("username", JVal.jstr u.username), ("level", JVal.jint u.level)]

/-- `UserData.model_dump_json()`: the compact JSON text.  Escaping of
special characters inside the username is not modelled (no claim
depends on it). -/
def dumpUserDataJson (u : UserData) : String :=
  "\x7b\"username\":\"" ++ u.username ++ "\",\"level\":" ++ toString u.level ++ "\x7d"

/-- Python `s.startswith(pre)` over the character lists. -/
def strStartsWith (s pre : String) : Bool := pre.data.isPrefixOf s.data

/-- Minimal model of pydantic `HttpUrl` validation: the value must be
a string with an http(s) scheme.  (Pydantic checks more; every URL in
this development is well-formed, so only the scheme check matters.) -/
def isHttpUrlStr (s : String) : Bool :=
  strStartsWith s "http://" || strStartsWith s "https://"

/-- Required pydantic `HttpUrl` field. -/
def reqUrl (fs : List (String × JVal)) (k : String) : Option String :=
  match jLookup fs k with
  | some (JVal.jstr s) => if isHttpUrlStr s then some s else Option.none
  | _ => Option.none

/-- `UserResponse(**response_json)`. -/
def parseUserResponse (body : JVal) : Option UserResponse :=
  match body with
  | JVal.jobj fs => do
    let object ← reqStr fs "object"
    let url ← reqUrl fs "url"
    let data_updated_at ← optStrField fs "data_updated_at"
    let data ← match jLookup fs "data" with
      | some v => parseUserData v
      | Option.none => Option.none
    pure { object, url, data_updated_at, data }
  | _ => Option.none

/-- Outcome of the single outbound HTTP GET a fetch function issues:
a 2xx response whose body decoded as JSON, a non-2xx status
(`raise_for_status` raised `HTTPStatusError`), a network/timeout
failure (`httpx.RequestError` / `httpx.TimeoutException`), or a 2xx
response whose body failed to decode (`response.json()` raised). -/
inductive HttpOutcome where
  | success (body : JVal)
  | statusError
  | transportError
  | malformedJson

/-- `fetch_kanji_details` (kanji_api_http_client.py): single-character
guard, then `GET /kanji/{char}`, parsing into `KanjiDetailModel`;
every error path collapses to `None`.  Second component: number of
outbound requests. -/
def fetch_kanji_details (kanji_char : String) (resp : HttpOutcome) :
    Option KanjiDetailModel × Nat :=
  if kanji_char.length = 1 then
    (match resp with
     | HttpOutcome.success body => parseKanjiDetail body
     | _ => Option.none, 1)
  else (Option.none, 0)

/-- `fetch_joyo_kanji_list`: `GET /kanji/joyo`; the body must be a
list in which every element is a string, otherwise `None`. -/
def fetch_joyo_kanji_list (resp : HttpOutcome) : Option (List String) × Nat :=
  (match resp with
   | HttpOutcome.success body => asStrList body
   | _ => Option.none, 1)

/-- The request path of `fetch_kanji_list`. -/
def kanjiListEndpoint (list_name : String) : String := "/kanji/" ++ list_name

/-- `fetch_kanji_list`: empty-name guard, then `GET /kanji/{list_name}`;
the body must be a list in which every element is a string. -/
def fetch_kanji_list (list_name : String) (resp : HttpOutcome) :
    Option (List String) × Nat :=
  if list_name = "" then (Option.none, 0)
  else
    (match resp with
     | HttpOutcome.success body => asStrList body
     | _ => Option.none, 1)

/-- `fetch_kanji_by_reading`: empty-reading guard, then
`GET /reading/{reading}`, parsing into `KanjiReading`. -/
def fetch_kanji_by_reading (reading_value : String) (resp : HttpOutcome) :
    Option KanjiReading × Nat :=
  if reading_value = "" then (Option.none, 0)
  else
    (match resp with
     | HttpOutcome.success body => parseKanjiReading body
     | _ => Option.none, 1)

/-- `fetch_words_for_kanji`: single-character guard, then
`GET /words/{char}`; the body must be a list, and every element must
parse into a `WordEntry` — one bad element raises inside the list
comprehension and is caught by the generic handler, failing the whole
call. -/
def fetch_words_for_kanji (kanji_char : String) (resp : HttpOutcome) :
    Option (List WordEntry) × Nat :=
  if kanji_char.length = 1 then
    (match resp with
     | HttpOutcome.success (JVal.jarr es) => parseList parseWordEntry es
     | _ => Option.none, 1)
  else (Option.none, 0)

/-- `fetch_wanikani_user_info` (wanikani_api_http_client.py):
missing-token guard, then authenticated `GET {base}/user`, parsing the
envelope `UserResponse` and projecting its `data`. -/
def fetch_wanikani_user_info (api_token : String) (resp : HttpOutcome) :
    Option UserData × Nat :=
  if api_token = "" then (Option.none, 0)
  else
    (match resp with
     | HttpOutcome.success body =>
       (match parseUserResponse body with
        | some r => some r.data
        | Option.none => Option.none)
     | _ => Option.none, 1)

/-- Externally visible outcome of one kanji-API tool invocation:
a success payload (the object handed to `json.dumps`), a raised
`RetryableToolError` (message, developer message, additional prompt
content), or a raised `ToolExecutionError` (message only — no retry
guidance fields exist on it). -/
inductive ToolResult where
  | ok (payload : JVal)
  | retryableError (message developer_message additional_prompt_content : String)
  | executionError (message : String)

/-- Did the invocation raise `RetryableToolError`? -/
def ToolResult.isRetryable : ToolResult → Bool
  | ToolResult.retryableError _ _ _ => true
  | _ => false

/-- Did the invocation raise `ToolExecutionError`? -/
def ToolResult.isExecError : ToolResult → Bool
  | ToolResult.executionError _ => true
  | _ => false

/-- The `ToolExecutionError` message of `get_kanji_details`. -/
def kanjiDetailsFailMsg (cleaned : String) : String :=
  "I couldn't find detailed information for the kanji '" ++ cleaned ++
  "'. Please ensure it's a recognized Japanese kanji character."

/-- `get_kanji_details` (kanji_api_tools.py). -/
def get_kanji_details (kanji_char : PyVal) (resp : HttpOutcome) : ToolResult × Nat :=
  if pyCleanStr kanji_char = "" ∨ (pyCleanStr kanji_char).length ≠ 1 then
    (ToolResult.retryableError
      ("Please provide a single, valid Japanese kanji character. The input '" ++
        pyRepr kanji_char ++ "' is not suitable.")
      ("Invalid input for get_kanji_details: kanji_char must be a single non-whitespace string character. Received: '" ++
        pyRepr kanji_char ++ "', Cleaned: '" ++ pyCleanStr kanji_char ++ "'")
      "The provided input for the kanji character was invalid. Please ask the user for a single, specific kanji character.",
     0)
  else
    match fetch_kanji_details (pyCleanStr kanji_char) resp with
    | (some m, n) => (ToolResult.ok (dumpKanjiDetail m), n)
    | (Option.none, n) =>
      (ToolResult.executionError (kanjiDetailsFailMsg (pyCleanStr kanji_char)), n)

/-- The `ToolExecutionError` message of `list_joyo_kanji`. -/
def joyoFailMsg : String :=
  "Sorry, I was unable to retrieve the list of Jōyō kanji at this time. There might have been an issue communicating with the Kanji API."

/-- `list_joyo_kanji` (kanji_api_tools.py). -/
def list_joyo_kanji (resp : HttpOutcome) : ToolResult × Nat :=
  match fetch_joyo_kanji_list resp with
  | (some l, n) => (ToolResult.ok (jStrArr l), n)
  | (Option.none, n) => (ToolResult.executionError joyoFailMsg, n)

/-- The `ToolExecutionError` message of `get_kanji_list_by_category`. -/
def categoryFailMsg (cleaned : String) : String :=
  "I couldn't retrieve the kanji list for the category '" ++ cleaned ++
  "'. Please ensure it's a recognized category name (like 'joyo', 'grade-1', 'jlpt-n3')."

/-- `get_kanji_list_by_category` (kanji_api_tools.py). -/
def get_kanji_list_by_category (list_name : PyVal) (resp : HttpOutcome) : ToolResult × Nat :=
  if pyCleanCat list_name = "" then
    (ToolResult.retryableError
      ("Please provide a valid category name for the kanji list. The input '" ++
        pyRepr list_name ++ "' is empty or invalid.")
      ("Invalid input for get_kanji_list_by_category: list_name cannot be empty. Received: '" ++
        pyRepr list_name ++ "'")
      "A category name for the kanji list was not provided or was invalid. Please ask the user for a specific category (e.g., 'joyo', 'grade-1', 'jlpt-n3').",
     0)
  else
    match fetch_kanji_list (pyCleanCat list_name) resp with
    | (some l, n) => (ToolResult.ok (jStrArr l), n)
    | (Option.none, n) =>
      (ToolResult.executionError (categoryFailMsg (pyCleanCat list_name)), n)

/-- The `ToolExecutionError` message of `get_kanji_by_reading`. -/
def readingFailMsg (cleaned : String) : String :=
  "I couldn't find any kanji associated with the reading '" ++ cleaned ++
  "'. Please check the reading or try a different one."

/-- `get_kanji_by_reading` (kanji_api_tools.py). -/
def get_kanji_by_reading (reading_value : PyVal) (resp : HttpOutcome) : ToolResult × Nat :=
  if pyCleanStr reading_value = "" then
    (ToolResult.retryableError
      ("Please provide a Japanese reading (in hiragana or katakana) to search for. The input '" ++
        pyRepr reading_value ++ "' is empty or invalid.")
      ("Invalid input for get_kanji_by_reading: reading_value cannot be empty. Received: '" ++
        pyRepr reading_value ++ "'")
      "A Japanese reading was not provided or was invalid. Please ask the user for a specific reading in kana.",
     0)
  else
    match fetch_kanji_by_reading (pyCleanStr reading_value) resp with
    | (some r, n) => (ToolResult.ok (dumpKanjiReading r), n)
    | (Option.none, n) =>
      (ToolResult.executionError (readingFailMsg (pyCleanStr reading_value)), n)

/-- The `ToolExecutionError` message of `get_words_for_kanji`. -/
def wordsFailMsg (cleaned : String) : String :=
  "I couldn't retrieve words for the kanji '" ++ cleaned ++
  "'. This might mean no words are listed for this kanji, or there was an issue fetching the data."

/-- `get_words_for_kanji` (kanji_api_tools.py). -/
def get_words_for_kanji (kanji_char : PyVal) (resp : HttpOutcome) : ToolResult × Nat :=
  if pyCleanStr kanji_char = "" ∨ (pyCleanStr kanji_char).length ≠ 1 then
    (ToolResult.retryableError
      ("Please provide a single, valid Japanese kanji character to find words for. Input '" ++
        pyRepr kanji_char ++ "' is not suitable.")
      ("Invalid input for get_words_for_kanji: kanji_char must be a single non-whitespace string character. Received: '" ++
        pyRepr kanji_char ++ "', Cleaned: '" ++ pyCleanStr kanji_char ++ "'")
      "The provided input for the kanji character was invalid. Please ask the user for a single, specific kanji character to search words for.",
     0)
  else
    match fetch_words_for_kanji (pyCleanStr kanji_char) resp with
    | (some entries, n) => (ToolResult.ok (JVal.jarr (entries.map dumpWordEntry)), n)
    | (Option.none, n) =>
      (ToolResult.executionError (wordsFailMsg (pyCleanStr kanji_char)), n)

/-- The fixed string `get_user_information` returns when the secret is
missing or empty. -/
def noTokenMsg : String :=
  "No WaniKani API token provided, so no user information can be fetched."

/-- The descriptive string `get_user_information` returns when the
fetch yields no result. -/
def profileFailMsg : String :=
  "Could not retrieve WaniKani user information due to an API error, invalid data, or token issue."

/-- `get_user_information` (wakani_api_tools.py).  The secret binding
is modelled by an optional token (`none` = secret absent).  The
function's codomain is `String × Nat`: it returns a string on every
path and never raises. -/
def get_user_information (api_token : Option String) (resp : HttpOutcome) : String × Nat :=
  match api_token with
  | Option.none => (noTokenMsg, 0)
  | some tok =>
    if tok = "" then (noTokenMsg, 0)
    else
      match fetch_wanikani_user_info tok resp with
      | (some ud, n) => (dumpUserDataJson ud, n)
      | (Option.none, n) => (profileFailMsg, n)

theorem pyLower_empty : pyLower "" = "" := rfl

theorem pyCleanCat_empty_of_strip (v : PyVal) (h : pyCleanStr v = "") :
    pyCleanCat v = "" := by
  cases v with
  | str s =>
    simp only [pyCleanStr] at h
    simp only [pyCleanCat, h, pyLower_empty]
  | noneVal => rfl
  | other rep => rfl

/-- C1: a caller-supplied argument failing local validation (trimmed
length ≠ 1 for the single-character tools; empty after trimming for
the free-text tools) makes the tool raise `RetryableToolError` with
zero outbound HTTP requests. -/
theorem c1_invalid_input_retryable_no_network (inp inp2 : PyVal) (resp : HttpOutcome)
    (h1 : (pyCleanStr inp).length ≠ 1) (h2 : pyCleanStr inp2 = "") :
    ((get_kanji_details inp resp).1.isRetryable = true ∧ (get_kanji_details inp resp).2 = 0) ∧
    ((get_words_for_kanji inp resp).1.isRetryable = true ∧ (get_words_for_kanji inp resp).2 = 0) ∧
    ((get_kanji_list_by_category inp2 resp).1.isRetryable = true ∧
      (get_kanji_list_by_category inp2 resp).2 = 0) ∧
    ((get_kanji_by_reading inp2 resp).1.isRetryable = true ∧
      (get_kanji_by_reading inp2 resp).2 = 0) := by
  have hcat : pyCleanCat inp2 = "" := pyCleanCat_empty_of_strip inp2 h2
  refine ⟨⟨?_, ?_⟩, ⟨?_, ?_⟩, ⟨?_, ?_⟩, ⟨?_, ?_⟩⟩
  · simp only [get_kanji_details]; rw [if_pos (Or.inr h1)]; rfl
  · simp only [get_kanji_details]; rw [if_pos (Or.inr h1)]
  · simp only [get_words_for_kanji]; rw [if_pos (Or.inr h1)]; rfl
  · simp only [get_words_for_kanji]; rw [if_pos (Or.inr h1)]
  · simp only [get_kanji_list_by_category]; rw [if_pos hcat]; rfl
  · simp only [get_kanji_list_by_category]; rw [if_pos hcat]
  · simp only [get_kanji_by_reading]; rw [if_pos h2]; rfl
  · simp only [get_kanji_by_reading]; rw [if_pos h2]

theorem c1_invalid_input_retryable_no_network_witness :
    ((pyCleanStr (PyVal.str " ab ")).length ≠ 1 ∧ pyCleanStr (PyVal.str "   ") = "") ∧
    ((get_kanji_details (PyVal.str " ab ") HttpOutcome.statusError).1.isRetryable = true ∧
      (get_kanji_details (PyVal.str " ab ") HttpOutcome.statusError).2 = 0) ∧
    ((get_words_for_kanji (PyVal.str " ab ") HttpOutcome.statusError).1.isRetryable = true ∧
      (get_words_for_kanji (PyVal.str " ab ") HttpOutcome.statusError).2 = 0) ∧
    ((get_kanji_list_by_category (PyVal.str "   ") HttpOutcome.statusError).1.isRetryable = true ∧
      (get_kanji_list_by_category (PyVal.str "   ") HttpOutcome.statusError).2 = 0) ∧
    ((get_kanji_by_reading (PyVal.str "   ") HttpOutcome.statusError).1.isRetryable = true ∧
      (get_kanji_by_reading (PyVal.str "   ") HttpOutcome.statusError).2 = 0) :=
  ⟨⟨by decide, by decide⟩,
   c1_invalid_input_retryable_no_network (PyVal.str " ab ") (PyVal.str "   ")
     HttpOutcome.statusError (by decide) (by decide)⟩

/-- C10: a non-string argument (`None` or any other object) is
normalized to the empty string by the `isinstance` guard, so every
kanji-API tool raises the recoverable `RetryableToolError` with zero
outbound requests instead of propagating a type error. -/
theorem c10_nonstring_input_safe (inp : PyVal) (resp : HttpOutcome)
    (h : inp.isStr = false) :
    pyCleanStr inp = "" ∧ pyCleanCat inp = "" ∧
    ((get_kanji_details inp resp).1.isRetryable = true ∧ (get_kanji_details inp resp).2 = 0) ∧
    ((get_words_for_kanji inp resp).1.isRetryable = true ∧ (get_words_for_kanji inp resp).2 = 0) ∧
    ((get_kanji_list_by_category inp resp).1.isRetryable = true ∧
      (get_kanji_list_by_category inp resp).2 = 0) ∧
    ((get_kanji_by_reading inp resp).1.isRetryable = true ∧
      (get_kanji_by_reading inp resp).2 = 0) := by
  have h0 : pyCleanStr inp = "" := by
    cases inp with
    | str s => simp [PyVal.isStr] at h
    | noneVal => rfl
    | other rep => rfl
  have h1 : (pyCleanStr inp).length ≠ 1 := by rw [h0]; decide
  exact ⟨h0, pyCleanCat_empty_of_strip inp h0,
    c1_invalid_input_retryable_no_network inp inp resp h1 h0⟩

theorem c10_nonstring_input_safe_witness :
    PyVal.noneVal.isStr = false ∧
    (pyCleanStr PyVal.noneVal = "" ∧ pyCleanCat PyVal.noneVal = "" ∧
    ((get_kanji_details PyVal.noneVal HttpOutcome.statusError).1.isRetryable = true ∧
      (get_kanji_details PyVal.noneVal HttpOutcome.statusError).2 = 0) ∧
    ((get_words_for_kanji PyVal.noneVal HttpOutcome.statusError).1.isRetryable = true ∧
      (get_words_for_kanji PyVal.noneVal HttpOutcome.statusError).2 = 0) ∧
    ((get_kanji_list_by_category PyVal.noneVal HttpOutcome.statusError).1.isRetryable = true ∧
      (get_kanji_list_by_category PyVal.noneVal HttpOutcome.statusError).2 = 0) ∧
    ((get_kanji_by_reading PyVal.noneVal HttpOutcome.statusError).1.isRetryable = true ∧
      (get_kanji_by_reading PyVal.noneVal HttpOutcome.statusError).2 = 0)) :=
  ⟨rfl, c10_nonstring_input_safe PyVal.noneVal HttpOutcome.statusError rfl⟩

/-- C2: whenever a fetch function returns the uniform `None` outcome
after input validation passed — whatever the cause (`HttpOutcome` is
universally quantified) — every tool except the learner-profile tool
raises `ToolExecutionError` carrying only a user-facing message
(`ToolResult.executionError` has no retry-guidance fields), while the
learner-profile tool returns a descriptive string without raising. -/
theorem c2_fetch_none_maps_to_execution_error
    (inpS inpC inpF : PyVal) (resp : HttpOutcome) (tok : String)
    (hS : (pyCleanStr inpS).length = 1)
    (hC : pyCleanCat inpC ≠ "")
    (hF : pyCleanStr inpF ≠ "")
    (htok : tok ≠ "")
    (hd : (fetch_kanji_details (pyCleanStr inpS) resp).1 = Option.none)
    (hj : (fetch_joyo_kanji_list resp).1 = Option.none)
    (hc : (fetch_kanji_list (pyCleanCat inpC) resp).1 = Option.none)
    (hr : (fetch_kanji_by_reading (pyCleanStr inpF) resp).1 = Option.none)
    (hw : (fetch_words_for_kanji (pyCleanStr inpS) resp).1 = Option.none)
    (hu : (fetch_wanikani_user_info tok resp).1 = Option.none) :
    (get_kanji_details inpS resp).1
      = ToolResult.executionError (kanjiDetailsFailMsg (pyCleanStr inpS)) ∧
    (list_joyo_kanji resp).1 = ToolResult.executionError joyoFailMsg ∧
    (get_kanji_list_by_category inpC resp).1
      = ToolResult.executionError (categoryFailMsg (pyCleanCat inpC)) ∧
    (get_kanji_by_reading inpF resp).1
      = ToolResult.executionError (readingFailMsg (pyCleanStr inpF)) ∧
    (get_words_for_kanji inpS resp).1
      = ToolResult.executionError (wordsFailMsg (pyCleanStr inpS)) ∧
    (get_user_information (some tok) resp).1 = profileFailMsg := by
  have hSne : pyCleanStr inpS ≠ "" := by
    intro he; rw [he] at hS; exact absurd hS (by decide)
  have hScond : ¬(pyCleanStr inpS = "" ∨ (pyCleanStr inpS).length ≠ 1) := by
    rintro (he | hl)
    · exact hSne he
    · exact hl hS
  refine ⟨?_, ?_, ?_, ?_, ?_, ?_⟩
  · simp only [get_kanji_details]
    rw [if_neg hScond]
    cases hfd : fetch_kanji_details (pyCleanStr inpS) resp with
    | mk r n =>
      rw [hfd] at hd
      cases r with
      | none => rfl
      | some m => simp at hd
  · simp only [list_joyo_kanji]
    cases hfd : fetch_joyo_kanji_list resp with
    | mk r n =>
      rw [hfd] at hj
      cases r with
      | none => rfl
      | some l => simp at hj
  · simp only [get_kanji_list_by_category]
    rw [if_neg hC]
    cases hfd : fetch_kanji_list (pyCleanCat inpC) resp with
    | mk r n =>
      rw [hfd] at hc
      cases r with
      | none => rfl
      | some l => simp at hc
  · simp only [get_kanji_by_reading]
    rw [if_neg hF]
    cases hfd : fetch_kanji_by_reading (pyCleanStr inpF) resp with
    | mk r n =>
      rw [hfd] at hr
      cases r with
      | none => rfl
      | some l => simp at hr
  · simp only [get_words_for_kanji]
    rw [if_neg hScond]
    cases hfd : fetch_words_for_kanji (pyCleanStr inpS) resp with
    | mk r n =>
      rw [hfd] at hw
      cases r with
      | none => rfl
      | some l => simp at hw
  · simp only [get_user_information]
    rw [if_neg htok]
    cases hfd : fetch_wanikani_user_info tok resp with
    | mk r n =>
      rw [hfd] at hu
      cases r with
      | none => rfl
      | some ud => simp at hu

theorem c2_fetch_none_maps_to_execution_error_witness :
    ((pyCleanStr (PyVal.str "水")).length = 1 ∧
      pyCleanCat (PyVal.str "Joyo") ≠ "" ∧ pyCleanStr (PyVal.str "みつ") ≠ "" ∧
      (fetch_kanji_details (pyCleanStr (PyVal.str "水")) HttpOutcome.statusError).1
        = Option.none) ∧
    ((get_kanji_details (PyVal.str "水") HttpOutcome.statusError).1
      = ToolResult.executionError (kanjiDetailsFailMsg (pyCleanStr (PyVal.str "水"))) ∧
    (list_joyo_kanji HttpOutcome.statusError).1 = ToolResult.executionError joyoFailMsg ∧
    (get_kanji_list_by_category (PyVal.str "Joyo") HttpOutcome.statusError).1
      = ToolResult.executionError (categoryFailMsg (pyCleanCat (PyVal.str "Joyo"))) ∧
    (get_kanji_by_reading (PyVal.str "みつ") HttpOutcome.statusError).1
      = ToolResult.executionError (readingFailMsg (pyCleanStr (PyVal.str "みつ"))) ∧
    (get_words_for_kanji (PyVal.str "水") HttpOutcome.statusError).1
      = ToolResult.executionError (wordsFailMsg (pyCleanStr (PyVal.str "水"))) ∧
    (get_user_information (some "token-abc") HttpOutcome.statusError).1 = profileFailMsg) :=
  ⟨⟨by decide, by decide, by decide, rfl⟩,
   c2_fetch_none_maps_to_execution_error (PyVal.str "水") (PyVal.str "Joyo")
     (PyVal.str "みつ") HttpOutcome.statusError "token-abc"
     (by decide) (by decide) (by decide) (by decide)
     rfl rfl rfl rfl rfl rfl⟩

/-- C9: the learner-profile tool never raises.  A missing or empty
secret yields the fixed descriptive string with zero outbound
requests; a failing fetch yields the descriptive failure string; and
on every input the returned value is one of the two descriptive
strings or a serialized profile. -/
theorem c9_profile_tool_degrades_to_string (tok : String) (resp : HttpOutcome)
    (htok : tok ≠ "")
    (hfail : (fetch_wanikani_user_info tok resp).1 = Option.none) :
    get_user_information Option.none resp = (noTokenMsg, 0) ∧
    get_user_information (some "") resp = (noTokenMsg, 0) ∧
    (get_user_information (some tok) resp).1 = profileFailMsg ∧
    (∀ (t2 : Option String) (r2 : HttpOutcome),
      (get_user_information t2 r2).1 = noTokenMsg ∨
      (get_user_information t2 r2).1 = profileFailMsg ∨
      ∃ ud : UserData, (get_user_information t2 r2).1 = dumpUserDataJson ud) := by
  refine ⟨rfl, rfl, ?_, ?_⟩
  · simp only [get_user_information]
    rw [if_neg htok]
    cases hfd : fetch_wanikani_user_info tok resp with
    | mk r n =>
      rw [hfd] at hfail
      cases r with
      | none => rfl
      | some ud => simp at hfail
  · intro t2 r2
    cases t2 with
    | none => exact Or.inl rfl
    | some t =>
      by_cases ht : t = ""
      · subst ht; exact Or.inl rfl
      · simp only [get_user_information]
        rw [if_neg ht]
        cases hfd : fetch_wanikani_user_info t r2 with
        | mk r n =>
          cases r with
          | none => exact Or.inr (Or.inl rfl)
          | some ud => exact Or.inr (Or.inr ⟨ud, rfl⟩)

theorem c9_profile_tool_degrades_to_string_witness :
    ("tok-xyz" ≠ "" ∧
      (fetch_wanikani_user_info "tok-xyz" HttpOutcome.transportError).1 = Option.none) ∧
    (get_user_information Option.none HttpOutcome.transportError = (noTokenMsg, 0) ∧
    get_user_information (some "") HttpOutcome.transportError = (noTokenMsg, 0) ∧
    (get_user_information (some "tok-xyz") HttpOutcome.transportError).1 = profileFailMsg ∧
    (∀ (t2 : Option String) (r2 : HttpOutcome),
      (get_user_information t2 r2).1 = noTokenMsg ∨
      (get_user_information t2 r2).1 = profileFailMsg ∨
      ∃ ud : UserData, (get_user_information t2 r2).1 = dumpUserDataJson ud)) :=
  ⟨⟨by decide, rfl⟩,
   c9_profile_tool_degrades_to_string "tok-xyz" HttpOutcome.transportError (by decide) rfl⟩

theorem strList_map_jstr (ss : List String) : strList (ss.map JVal.jstr) = some ss := by
  induction ss with
  | nil => rfl
  | cons s rest ih => simp [strList, asStr, ih]

theorem asStrList_jStrArr (ss : List String) : asStrList (jStrArr ss) = some ss := by
  simp [asStrList, jStrArr, strList_map_jstr]

theorem parseList_map {α : Type} (p1 : JVal → Option α) (d1 : α → JVal)
    (h : ∀ a, p1 (d1 a) = some a) (xs : List α) :
    parseList p1 (xs.map d1) = some xs := by
  induction xs with
  | nil => rfl
  | cons a rest ih => simp [parseList, h, ih]

theorem parse_dump_kanjiDetail (m : KanjiDetailModel) :
    parseKanjiDetail (dumpKanjiDetail m) = some m := by
  obtain ⟨kanji, grade, stroke_count, meanings, kun, on2, nam, jlpt, unicode,
    heisig, freq, unihan, notes⟩ := m
  cases grade <;> cases jlpt <;> cases heisig <;> cases freq <;> cases unihan <;>
    simp [parseKanjiDetail, dumpKanjiDetail, kanjiDetailFields, dumpOptIntField,
      dumpOptStrField, jLookup, reqStr, reqInt, reqStrList, optIntField, optStrField,
      defStrList, asStr, asInt, asStrList, jStrArr, strList_map_jstr]

theorem parse_dump_kanjiReading (r : KanjiReading) :
    parseKanjiReading (dumpKanjiReading r) = some r := by
  obtain ⟨reading, main_kanji, name_kanji⟩ := r
  simp [parseKanjiReading, dumpKanjiReading, jLookup, reqStr, reqStrList,
    asStr, asStrList, jStrArr, strList_map_jstr]

theorem parse_dump_meaning (m : Meaning) : parseMeaning (dumpMeaning m) = some m := by
  obtain ⟨glosses⟩ := m
  simp [parseMeaning, dumpMeaning, jLookup, reqStrList, asStrList, jStrArr,
    strList_map_jstr]

theorem parse_dump_variant (v : Variant) : parseVariant (dumpVariant v) = some v := by
  obtain ⟨written, pronounced, priorities⟩ := v
  cases pronounced <;>
    simp [parseVariant, dumpVariant, jLookup, reqStr, optStrField, defStrList,
      dumpOptStrField, asStr, asStrList, jStrArr, strList_map_jstr]

theorem parse_dump_wordEntry (w : WordEntry) :
    parseWordEntry (dumpWordEntry w) = some w := by
  obtain ⟨meanings, variants⟩ := w
  simp [parseWordEntry, dumpWordEntry, jLookup, reqObjList,
    parseList_map parseMeaning dumpMeaning parse_dump_meaning,
    parseList_map parseVariant dumpVariant parse_dump_variant]

theorem parse_dump_userData (u : UserData) : parseUserData (dumpUserData u) = some u := by
  obtain ⟨username, level⟩ := u
  simp [parseUserData, dumpUserData, jLookup, reqStr, reqInt, asStr, asInt]

/-- C5: serializing a parsed record with `model_dump(exclude_none=True)`
and parsing the payload back through the same pydantic validation
reproduces the record exactly: present fields keep their values, and
the fields omitted because they were `None` decode back to their
`None`/empty defaults.  This holds for every record type a successful
fetch can produce. -/
theorem c5_serialize_parse_roundtrip :
    (∀ m : KanjiDetailModel, parseKanjiDetail (dumpKanjiDetail m) = some m) ∧
    (∀ r : KanjiReading, parseKanjiReading (dumpKanjiReading r) = some r) ∧
    (∀ w : WordEntry, parseWordEntry (dumpWordEntry w) = some w) ∧
    (∀ u : UserData, parseUserData (dumpUserData u) = some u) :=
  ⟨parse_dump_kanjiDetail, parse_dump_kanjiReading, parse_dump_wordEntry,
   parse_dump_userData⟩

/-- The backend body of the spec's own success scenario for the detail
lookup: an object carrying only `kanji`, `stroke_count`, `meanings`
and `unicode` (the other required-less fields all take defaults). -/
def c3Body : JVal :=
  JVal.jobj [("kanji", JVal.jstr "水"), ("stroke_count", JVal.jint 4),
             ("meanings", JVal.jarr [JVal.jstr "water"]),
             ("unicode", JVal.jstr "6c34")]

/-- The record `c3Body` parses into. -/
def c3Model : KanjiDetailModel :=
  { kanji := "水", grade := Option.none, stroke_count := 4, meanings := ["water"],
    kun_readings := [], on_readings := [], name_readings := [],
    jlpt := Option.none, unicode := "6c34", heisig_en := Option.none,
    freq_mainichi_shinbun := Option.none,
    unihan_cjk_compatibility_variant := Option.none, notes := [] }

/-- C3 counterexample: a successful detail lookup whose parsed record
has an empty `kun_readings` list still carries a `kun_readings` entry
(the empty array) in its serialized payload — `exclude_none=True`
omits only `None`-valued fields, so the claim that empty-list fields
do not appear in the output payload is false. -/
theorem c3_counterexample_empty_list_field_kept :
    (get_kanji_details (PyVal.str "水") (HttpOutcome.success c3Body)).1
      = ToolResult.ok (JVal.jobj (kanjiDetailFields c3Model)) ∧
    c3Model.kun_readings = [] ∧
    jLookup (kanjiDetailFields c3Model) "kun_readings" = some (JVal.jarr []) :=
  ⟨rfl, rfl, rfl⟩

theorem jLookup_append (a b : List (String × JVal)) (k : String) :
    jLookup (a ++ b) k = Option.or (jLookup a k) (jLookup b k) := by
  induction a with
  | nil => simp [jLookup]
  | cons p rest ih =>
    obtain ⟨k1, v⟩ := p
    by_cases h : k1 = k <;> simp [jLookup, h, ih]

theorem jLookup_dumpOptIntField (k1 k : String) (v : Option Int) :
    jLookup (dumpOptIntField k1 v) k
      = if k1 = k then Option.map JVal.jint v else Option.none := by
  cases v <;> by_cases h : k1 = k <;> simp [dumpOptIntField, jLookup, h]

theorem jLookup_dumpOptStrField (k1 k : String) (v : Option String) :
    jLookup (dumpOptStrField k1 v) k
      = if k1 = k then Option.map JVal.jstr v else Option.none := by
  cases v <;> by_cases h : k1 = k <;> simp [dumpOptStrField, jLookup, h]

theorem kanjiDetailFields_lookup (m : KanjiDetailModel) :
    jLookup (kanjiDetailFields m) "kanji" = some (JVal.jstr m.kanji) ∧
    jLookup (kanjiDetailFields m) "grade" = Option.map JVal.jint m.grade ∧
    jLookup (kanjiDetailFields m) "stroke_count" = some (JVal.jint m.stroke_count) ∧
    jLookup (kanjiDetailFields m) "meanings" = some (jStrArr m.meanings) ∧
    jLookup (kanjiDetailFields m) "kun_readings" = some (jStrArr m.kun_readings) ∧
    jLookup (kanjiDetailFields m) "on_readings" = some (jStrArr m.on_readings) ∧
    jLookup (kanjiDetailFields m) "name_readings" = some (jStrArr m.name_readings) ∧
    jLookup (kanjiDetailFields m) "jlpt" = Option.map JVal.jint m.jlpt ∧
    jLookup (kanjiDetailFields m) "unicode" = some (JVal.jstr m.unicode) ∧
    jLookup (kanjiDetailFields m) "heisig_en" = Option.map JVal.jstr m.heisig_en ∧
    jLookup (kanjiDetailFields m) "freq_mainichi_shinbun"
      = Option.map JVal.jint m.freq_mainichi_shinbun ∧
    jLookup (kanjiDetailFields m) "unihan_cjk_compatibility_variant"
      = Option.map JVal.jstr m.unihan_cjk_compatibility_variant ∧
    jLookup (kanjiDetailFields m) "notes" = some (jStrArr m.notes) := by
  refine ⟨?_, ?_, ?_, ?_, ?_, ?_, ?_, ?_, ?_, ?_, ?_, ?_, ?_⟩ <;>
    simp [kanjiDetailFields, jLookup_append, jLookup_dumpOptIntField,
      jLookup_dumpOptStrField, jLookup]

theorem variantFields_lookup (v : Variant) :
    jLookup (variantFields v) "written" = some (JVal.jstr v.written) ∧
    jLookup (variantFields v) "pronounced" = Option.map JVal.jstr v.pronounced ∧
    jLookup (variantFields v) "priorities" = some (jStrArr v.priorities) := by
  refine ⟨?_, ?_, ?_⟩ <;>
    simp [variantFields, jLookup_append, jLookup_dumpOptStrField, jLookup]

/-- C3 amended: a successful tool result's serialized payload omits
exactly the `None`-valued optional fields (an optional field appears
iff its value is non-`None`); empty-list fields are retained as empty
arrays; and the words tool serializes a list result as the array of
the entries' payloads. -/
theorem c3_amended_payload_omits_exactly_none_fields
    (m : KanjiDetailModel) (v : Variant) (inp : PyVal) (resp : HttpOutcome)
    (entries : List WordEntry)
    (hlen : (pyCleanStr inp).length = 1)
    (hw : (fetch_words_for_kanji (pyCleanStr inp) resp).1 = some entries) :
    jLookup (kanjiDetailFields m) "kanji" = some (JVal.jstr m.kanji) ∧
    jLookup (kanjiDetailFields m) "grade" = Option.map JVal.jint m.grade ∧
    jLookup (kanjiDetailFields m) "stroke_count" = some (JVal.jint m.stroke_count) ∧
    jLookup (kanjiDetailFields m) "meanings" = some (jStrArr m.meanings) ∧
    jLookup (kanjiDetailFields m) "kun_readings" = some (jStrArr m.kun_readings) ∧
    jLookup (kanjiDetailFields m) "on_readings" = some (jStrArr m.on_readings) ∧
    jLookup (kanjiDetailFields m) "name_readings" = some (jStrArr m.name_readings) ∧
    jLookup (kanjiDetailFields m) "jlpt" = Option.map JVal.jint m.jlpt ∧
    jLookup (kanjiDetailFields m) "unicode" = some (JVal.jstr m.unicode) ∧
    jLookup (kanjiDetailFields m) "heisig_en" = Option.map JVal.jstr m.heisig_en ∧
    jLookup (kanjiDetailFields m) "freq_mainichi_shinbun"
      = Option.map JVal.jint m.freq_mainichi_shinbun ∧
    jLookup (kanjiDetailFields m) "unihan_cjk_compatibility_variant"
      = Option.map JVal.jstr m.unihan_cjk_compatibility_variant ∧
    jLookup (kanjiDetailFields m) "notes" = some (jStrArr m.notes) ∧
    jLookup (variantFields v) "written" = some (JVal.jstr v.written) ∧
    jLookup (variantFields v) "pronounced" = Option.map JVal.jstr v.pronounced ∧
    jLookup (variantFields v) "priorities" = some (jStrArr v.priorities) ∧
    (get_words_for_kanji inp resp).1
      = ToolResult.ok (JVal.jarr (entries.map dumpWordEntry)) := by
  have hne : pyCleanStr inp ≠ "" := by
    intro he; rw [he] at hlen; exact absurd hlen (by decide)
  have hcond : ¬(pyCleanStr inp = "" ∨ (pyCleanStr inp).length ≠ 1) := by
    rintro (he | hl)
    · exact hne he
    · exact hl hlen
  have htool : (get_words_for_kanji inp resp).1
      = ToolResult.ok (JVal.jarr (entries.map dumpWordEntry)) := by
    simp only [get_words_for_kanji]
    rw [if_neg hcond]
    cases hfd : fetch_words_for_kanji (pyCleanStr inp) resp with
    | mk r n =>
      rw [hfd] at hw
      cases r with
      | none => simp at hw
      | some l =>
        simp only [Option.some.injEq] at hw
        subst hw
        rfl
  obtain ⟨k1, k2, k3, k4, k5, k6, k7, k8, k9, k10, k11, k12, k13⟩ :=
    kanjiDetailFields_lookup m
  obtain ⟨v1, v2, v3⟩ := variantFields_lookup v
  exact ⟨k1, k2, k3, k4, k5, k6, k7, k8, k9, k10, k11, k12, k13, v1, v2, v3, htool⟩

theorem c3_amended_payload_omits_exactly_none_fields_witness :
    ((pyCleanStr (PyVal.str "食")).length = 1 ∧
      (fetch_words_for_kanji (pyCleanStr (PyVal.str "食"))
        (HttpOutcome.success (JVal.jarr []))).1 = some []) ∧
    (jLookup (kanjiDetailFields c3Model) "kanji" = some (JVal.jstr c3Model.kanji) ∧
    jLookup (kanjiDetailFields c3Model) "grade" = Option.map JVal.jint c3Model.grade ∧
    jLookup (kanjiDetailFields c3Model) "stroke_count"
      = some (JVal.jint c3Model.stroke_count) ∧
    jLookup (kanjiDetailFields c3Model) "meanings" = some (jStrArr c3Model.meanings) ∧
    jLookup (kanjiDetailFields c3Model) "kun_readings"
      = some (jStrArr c3Model.kun_readings) ∧
    jLookup (kanjiDetailFields c3Model) "on_readings"
      = some (jStrArr c3Model.on_readings) ∧
    jLookup (kanjiDetailFields c3Model) "name_readings"
      = some (jStrArr c3Model.name_readings) ∧
    jLookup (kanjiDetailFields c3Model) "jlpt" = Option.map JVal.jint c3Model.jlpt ∧
    jLookup (kanjiDetailFields c3Model) "unicode" = some (JVal.jstr c3Model.unicode) ∧
    jLookup (kanjiDetailFields c3Model) "heisig_en"
      = Option.map JVal.jstr c3Model.heisig_en ∧
    jLookup (kanjiDetailFields c3Model) "freq_mainichi_shinbun"
      = Option.map JVal.jint c3Model.freq_mainichi_shinbun ∧
    jLookup (kanjiDetailFields c3Model) "unihan_cjk_compatibility_variant"
      = Option.map JVal.jstr c3Model.unihan_cjk_compatibility_variant ∧
    jLookup (kanjiDetailFields c3Model) "notes" = some (jStrArr c3Model.notes) ∧
    jLookup (variantFields (Variant.mk "食べる" Option.none [])) "written"
      = some (JVal.jstr (Variant.mk "食べる" Option.none []).written) ∧
    jLookup (variantFields (Variant.mk "食べる" Option.none [])) "pronounced"
      = Option.map JVal.jstr (Variant.mk "食べる" Option.none []).pronounced ∧
    jLookup (variantFields (Variant.mk "食べる" Option.none [])) "priorities"
      = some (jStrArr (Variant.mk "食べる" Option.none []).priorities) ∧
    (get_words_for_kanji (PyVal.str "食") (HttpOutcome.success (JVal.jarr []))).1
      = ToolResult.ok (JVal.jarr (List.map dumpWordEntry []))) :=
  ⟨⟨by decide, rfl⟩,
   c3_amended_payload_omits_exactly_none_fields c3Model
     (Variant.mk "食べる" Option.none []) (PyVal.str "食")
     (HttpOutcome.success (JVal.jarr [])) [] (by decide) rfl⟩

/-- The envelope body of a successful /user response whose nested data
carries an empty username and level 0. -/
def c4Body : JVal :=
  JVal.jobj [("object", JVal.jstr "user"),
             ("url", JVal.jstr "https://api.wanikani.com/v2/user"),
             ("data_updated_at", JVal.jnull),
             ("data", JVal.jobj [("username", JVal.jstr ""), ("level", JVal.jint 0)])]

/-- C4 counterexample: a successful learner-profile fetch can produce
a `UserData` record with an empty username and level 0 — the pydantic
model validates only the plain types `str` and `int`, so the claimed
invariant (non-empty username, level in 1–60) is not enforced. -/
theorem c4_counterexample_no_username_level_invariant :
    (fetch_wanikani_user_info "token123" (HttpOutcome.success c4Body)).1
      = some (UserData.mk "" 0) ∧
    ¬((UserData.mk "" 0).username ≠ "" ∧
      1 ≤ (UserData.mk "" 0).level ∧ (UserData.mk "" 0).level ≤ 60) :=
  ⟨rfl, by decide⟩

/-- The envelope body of a successful /user response with arbitrary
username and level. -/
def c4BodyFor (u : String) (lvl : Int) : JVal :=
  JVal.jobj [("object", JVal.jstr "user"),
             ("url", JVal.jstr "https://api.wanikani.com/v2/user"),
             ("data", JVal.jobj [("username", JVal.jstr u), ("level", JVal.jint lvl)])]

/-- C4 amended: a successful learner-profile fetch yields the username
string and integer level verbatim from the response's nested `data`
object; the data model enforces only these types — any string
(including the empty string) and any integer (including values outside
1–60) are accepted unchanged. -/
theorem c4_amended_profile_types_only (tok u : String) (lvl : Int) (htok : tok ≠ "") :
    (fetch_wanikani_user_info tok (HttpOutcome.success (c4BodyFor u lvl))).1
      = some (UserData.mk u lvl) := by
  have hurl : isHttpUrlStr "https://api.wanikani.com/v2/user" = true := by decide
  simp only [fetch_wanikani_user_info]
  rw [if_neg htok]
  simp [c4BodyFor, parseUserResponse, parseUserData, jLookup, reqStr, reqInt,
    reqUrl, optStrField, asStr, asInt, hurl]

theorem c4_amended_profile_types_only_witness :
    ("tkn" ≠ "" : Prop) ∧
    (fetch_wanikani_user_info "tkn"
      (HttpOutcome.success (c4BodyFor "" (-7)))).1 = some (UserData.mk "" (-7)) :=
  ⟨by decide, c4_amended_profile_types_only "tkn" "" (-7) (by decide)⟩

theorem parseList_none_of_mem {α : Type} (p1 : JVal → Option α) (es : List JVal)
    (v : JVal) (hv : v ∈ es) (hbad : p1 v = Option.none) :
    parseList p1 es = Option.none := by
  induction es with
  | nil => cases hv
  | cons a rest ih =>
    rcases List.mem_cons.mp hv with h | h
    · subst h
      simp [parseList, hbad]
    · cases ha : p1 a <;> simp [parseList, ha, ih h]

/-- C6: for a valid single-character input to the words lookup,
(a) a 2xx response whose body is not a JSON array yields the `None`
outcome and makes the tool raise `ToolExecutionError`, and
(b) a body that is an array in which some element fails to parse into
a `WordEntry` also fails the entire call — no partially parsed list is
ever returned. -/
theorem c6_words_non_array_and_no_partial_success
    (inp : PyVal) (body : JVal) (es : List JVal) (v : JVal)
    (hlen : (pyCleanStr inp).length = 1)
    (hshape : body.isArr = false)
    (hv : v ∈ es) (hbad : parseWordEntry v = Option.none) :
    (fetch_words_for_kanji (pyCleanStr inp) (HttpOutcome.success body)).1
      = Option.none ∧
    (get_words_for_kanji inp (HttpOutcome.success body)).1
      = ToolResult.executionError (wordsFailMsg (pyCleanStr inp)) ∧
    (fetch_words_for_kanji (pyCleanStr inp) (HttpOutcome.success (JVal.jarr es))).1
      = Option.none ∧
    (get_words_for_kanji inp (HttpOutcome.success (JVal.jarr es))).1
      = ToolResult.executionError (wordsFailMsg (pyCleanStr inp)) := by
  have hne : pyCleanStr inp ≠ "" := by
    intro he; rw [he] at hlen; exact absurd hlen (by decide)
  have hcond : ¬(pyCleanStr inp = "" ∨ (pyCleanStr inp).length ≠ 1) := by
    rintro (he | hl)
    · exact hne he
    · exact hl hlen
  have hf1 : (fetch_words_for_kanji (pyCleanStr inp) (HttpOutcome.success body)).1
      = Option.none := by
    simp only [fetch_words_for_kanji]
    rw [if_pos hlen]
    cases body with
    | jarr es2 => simp [JVal.isArr] at hshape
    | jnull => rfl
    | jbool b => rfl
    | jint n => rfl
    | jstr s => rfl
    | jobj fs => rfl
  have hf2 : (fetch_words_for_kanji (pyCleanStr inp)
      (HttpOutcome.success (JVal.jarr es))).1 = Option.none := by
    simp only [fetch_words_for_kanji]
    rw [if_pos hlen]
    simpa using parseList_none_of_mem parseWordEntry es v hv hbad
  have htool : ∀ r : HttpOutcome,
      (fetch_words_for_kanji (pyCleanStr inp) r).1 = Option.none →
      (get_words_for_kanji inp r).1
        = ToolResult.executionError (wordsFailMsg (pyCleanStr inp)) := by
    intro r hr
    simp only [get_words_for_kanji]
    rw [if_neg hcond]
    cases hfd : fetch_words_for_kanji (pyCleanStr inp) r with
    | mk res n =>
      rw [hfd] at hr
      cases res with
      | none => rfl
      | some l => simp at hr
  exact ⟨hf1, htool _ hf1, hf2, htool _ hf2⟩

theorem c6_words_non_array_and_no_partial_success_witness :
    ((pyCleanStr (PyVal.str "蜜")).length = 1 ∧ (JVal.jobj []).isArr = false ∧
      JVal.jint 3 ∈ [JVal.jint 3] ∧ parseWordEntry (JVal.jint 3) = Option.none) ∧
    ((fetch_words_for_kanji (pyCleanStr (PyVal.str "蜜"))
        (HttpOutcome.success (JVal.jobj []))).1 = Option.none ∧
    (get_words_for_kanji (PyVal.str "蜜") (HttpOutcome.success (JVal.jobj []))).1
      = ToolResult.executionError (wordsFailMsg (pyCleanStr (PyVal.str "蜜"))) ∧
    (fetch_words_for_kanji (pyCleanStr (PyVal.str "蜜"))
        (HttpOutcome.success (JVal.jarr [JVal.jint 3]))).1 = Option.none ∧
    (get_words_for_kanji (PyVal.str "蜜")
        (HttpOutcome.success (JVal.jarr [JVal.jint 3]))).1
      = ToolResult.executionError (wordsFailMsg (pyCleanStr (PyVal.str "蜜")))) :=
  ⟨⟨by decide, rfl, by simp, rfl⟩,
   c6_words_non_array_and_no_partial_success (PyVal.str "蜜") (JVal.jobj [])
     [JVal.jint 3] (JVal.jint 3) (by decide) rfl (by simp) rfl⟩

theorem strList_eq_map (es : List JVal) (ss : List String) (h : strList es = some ss) :
    es = ss.map JVal.jstr := by
  induction es generalizing ss with
  | nil =>
    simp only [strList, Option.some.injEq] at h
    subst h
    rfl
  | cons v rest ih =>
    cases hv : asStr v with
    | none => rw [strList, hv] at h; simp at h
    | some s =>
      cases hr : strList rest with
      | none => rw [strList, hv, hr] at h; simp at h
      | some ss2 =>
        rw [strList, hv, hr] at h
        simp only [Option.some.injEq] at h
        subst h
        have hvs : v = JVal.jstr s := by
          cases v <;> simp [asStr] at hv
          · rw [hv]
        rw [hvs, ih ss2 hr]
        rfl

theorem asStrList_isSome_iff (body : JVal) :
    ((asStrList body).isSome = true) ↔ ∃ ss, body = jStrArr ss := by
  constructor
  · intro h
    cases body with
    | jarr es =>
      simp only [asStrList] at h
      cases hs : strList es with
      | none => rw [hs] at h; simp at h
      | some ss => exact ⟨ss, by rw [jStrArr, strList_eq_map es ss hs]⟩
    | jnull => simp [asStrList] at h
    | jbool b => simp [asStrList] at h
    | jint n => simp [asStrList] at h
    | jstr s => simp [asStrList] at h
    | jobj fs => simp [asStrList] at h
  · rintro ⟨ss, rfl⟩
    simp [asStrList_jStrArr]

/-- C7: both category-list fetch operations succeed exactly when the
HTTP call succeeds with a decodable body AND that body is a list in
which every element is a string; any 2xx response with a different
body shape — like any transport or status failure — yields the `None`
outcome, so shape validation is a failure mode of its own. -/
theorem c7_category_fetch_success_iff_string_list
    (name : String) (resp : HttpOutcome) (hname : name ≠ "") :
    (((fetch_joyo_kanji_list resp).1.isSome = true)
      ↔ ∃ ss, resp = HttpOutcome.success (jStrArr ss)) ∧
    (((fetch_kanji_list name resp).1.isSome = true)
      ↔ ∃ ss, resp = HttpOutcome.success (jStrArr ss)) := by
  constructor
  · cases resp with
    | success body => simp [fetch_joyo_kanji_list, asStrList_isSome_iff body]
    | statusError => simp [fetch_joyo_kanji_list]
    | transportError => simp [fetch_joyo_kanji_list]
    | malformedJson => simp [fetch_joyo_kanji_list]
  · have hn : ¬(name = "") := hname
    cases resp with
    | success body =>
      simp only [fetch_kanji_list]
      rw [if_neg hn]
      simp [asStrList_isSome_iff body]
    | statusError =>
      simp only [fetch_kanji_list]
      rw [if_neg hn]
      simp
    | transportError =>
      simp only [fetch_kanji_list]
      rw [if_neg hn]
      simp
    | malformedJson =>
      simp only [fetch_kanji_list]
      rw [if_neg hn]
      simp

theorem c7_category_fetch_success_iff_string_list_witness :
    ("grade-1" ≠ "" : Prop) ∧
    ((((fetch_joyo_kanji_list (HttpOutcome.success (jStrArr ["一"]))).1.isSome = true)
      ↔ ∃ ss, HttpOutcome.success (jStrArr ["一"]) = HttpOutcome.success (jStrArr ss)) ∧
    (((fetch_kanji_list "grade-1" (HttpOutcome.success (jStrArr ["一"]))).1.isSome = true)
      ↔ ∃ ss, HttpOutcome.success (jStrArr ["一"]) = HttpOutcome.success (jStrArr ss))) :=
  ⟨by decide,
   c7_category_fetch_success_iff_string_list "grade-1"
     (HttpOutcome.success (jStrArr ["一"])) (by decide)⟩

theorem ws_toNat (c : Char) (h : c.isWhitespace = true) :
    c.toNat = 32 ∨ c.toNat = 9 ∨ c.toNat = 13 ∨ c.toNat = 10 := by
  simp only [Char.isWhitespace, Bool.or_eq_true, decide_eq_true_eq] at h
  rcases h with ((h | h) | h) | h <;> subst h <;> decide

theorem ofNat_lower_not_ws (n : Nat) (h1 : 97 ≤ n) (h2 : n ≤ 122) :
    (Char.ofNat n).isWhitespace = false := by
  interval_cases n <;> decide

theorem toLower_eq_ofNat (c : Char) (h : c.toNat ≥ 65 ∧ c.toNat ≤ 90) :
    Char.toLower c = Char.ofNat (c.toNat + 32) := by
  simp only [Char.toLower]
  rw [if_pos h]

theorem toLower_eq_self (c : Char) (h : ¬(c.toNat ≥ 65 ∧ c.toNat ≤ 90)) :
    Char.toLower c = c := by
  simp only [Char.toLower]
  rw [if_neg h]

theorem isWhitespace_toLower (c : Char) :
    (Char.toLower c).isWhitespace = c.isWhitespace := by
  by_cases hw : c.isWhitespace = true
  · have h := ws_toNat c hw
    have hcond : ¬(c.toNat ≥ 65 ∧ c.toNat ≤ 90) := by omega
    rw [toLower_eq_self c hcond]
  · have hb : c.isWhitespace = false := by
      cases hx : c.isWhitespace
      · rfl
      · exact absurd hx hw
    by_cases h65 : c.toNat ≥ 65 ∧ c.toNat ≤ 90
    · rw [toLower_eq_ofNat c h65, hb]
      exact ofNat_lower_not_ws (c.toNat + 32) (by omega) (by omega)
    · rw [toLower_eq_self c h65]

theorem toLower_ofNat_fixed (n : Nat) (h1 : 97 ≤ n) (h2 : n ≤ 122) :
    Char.toLower (Char.ofNat n) = Char.ofNat n := by
  interval_cases n <;> decide

theorem toLower_idem (c : Char) :
    Char.toLower (Char.toLower c) = Char.toLower c := by
  by_cases h : c.toNat ≥ 65 ∧ c.toNat ≤ 90
  · rw [toLower_eq_ofNat c h]
    exact toLower_ofNat_fixed (c.toNat + 32) (by omega) (by omega)
  · rw [toLower_eq_self c h, toLower_eq_self c h]

theorem dropWhile_idem {α : Type} (p : α → Bool) (l : List α) :
    (l.dropWhile p).dropWhile p = l.dropWhile p := by
  induction l with
  | nil => rfl
  | cons a t ih =>
    by_cases h : p a = true
    · rw [List.dropWhile_cons_of_pos h]
      exact ih
    · rw [List.dropWhile_cons_of_neg h, List.dropWhile_cons_of_neg h]

theorem dropWhile_eq_self_of_pref {α : Type} (p : α → Bool) (x m : List α)
    (hx : x <+: m) (hm : m.dropWhile p = m) : x.dropWhile p = x := by
  obtain ⟨r, rfl⟩ := hx
  cases x with
  | nil => rfl
  | cons a t =>
    by_cases hp : p a = true
    · exfalso
      rw [List.cons_append, List.dropWhile_cons_of_pos hp] at hm
      have hlen := congrArg List.length hm
      have hle : (List.dropWhile p (t ++ r)).length ≤ (t ++ r).length :=
        (List.dropWhile_suffix p).length_le
      simp [List.length_append] at hlen hle
      omega
    · rw [List.dropWhile_cons_of_neg hp]

theorem backStripIsPref {α : Type} (p : α → Bool) (m : List α) :
    (m.reverse.dropWhile p).reverse <+: m := by
  have h : m.reverse.dropWhile p <:+ m.reverse := List.dropWhile_suffix p
  have h2 : (m.reverse.dropWhile p).reverse <+: m.reverse.reverse :=
    List.reverse_prefix.mpr h
  rw [List.reverse_reverse] at h2
  exact h2

theorem pyStripList_dropWhile (l : List Char) :
    (pyStripList l).dropWhile Char.isWhitespace = pyStripList l :=
  dropWhile_eq_self_of_pref Char.isWhitespace (pyStripList l)
    (l.dropWhile Char.isWhitespace)
    (backStripIsPref Char.isWhitespace (l.dropWhile Char.isWhitespace))
    (dropWhile_idem Char.isWhitespace l)

theorem pyStripList_idem (l : List Char) :
    pyStripList (pyStripList l) = pyStripList l := by
  show (((pyStripList l).dropWhile Char.isWhitespace).reverse.dropWhile
    Char.isWhitespace).reverse = pyStripList l
  rw [pyStripList_dropWhile l]
  have h : (pyStripList l).reverse
      = (l.dropWhile Char.isWhitespace).reverse.dropWhile Char.isWhitespace := by
    show ((((l.dropWhile Char.isWhitespace).reverse.dropWhile
      Char.isWhitespace)).reverse).reverse = _
    rw [List.reverse_reverse]
  rw [h, dropWhile_idem]
  rfl

theorem pyStripList_map_toLower (l : List Char) :
    pyStripList (l.map Char.toLower) = (pyStripList l).map Char.toLower := by
  have hws : Char.isWhitespace ∘ Char.toLower = Char.isWhitespace := by
    funext c
    exact isWhitespace_toLower c
  simp [pyStripList, List.dropWhile_map, hws, ← List.map_reverse]

theorem map_toLower_idem (l : List Char) :
    (l.map Char.toLower).map Char.toLower = l.map Char.toLower := by
  have hcomp : Char.toLower ∘ Char.toLower = Char.toLower := funext toLower_idem
  simp [List.map_map, hcomp]

theorem normCatList (d : List Char) :
    (pyStripList ((pyStripList d).map Char.toLower)).map Char.toLower
      = (pyStripList d).map Char.toLower := by
  rw [pyStripList_map_toLower, pyStripList_idem]
  exact map_toLower_idem (pyStripList d)

theorem normalizeCategory_idem (s : String) :
    normalizeCategory (normalizeCategory s) = normalizeCategory s :=
  congrArg String.mk (normCatList s.data)

/-- C8: the category-name normalization (trim then lowercase) is
idempotent, and the inputs "Grade-1", "grade-1" and "  grade-1  " all
normalize to "grade-1", so the category tool makes the same downstream
fetch call (same normalized name, same `/kanji/grade-1` endpoint) and
returns the same result for all three. -/
theorem c8_category_normalization_idempotent_case_insensitive :
    (∀ s : String, normalizeCategory (normalizeCategory s) = normalizeCategory s) ∧
    normalizeCategory "Grade-1" = "grade-1" ∧
    normalizeCategory "grade-1" = "grade-1" ∧
    normalizeCategory "  grade-1  " = "grade-1" ∧
    (∀ resp : HttpOutcome,
      get_kanji_list_by_category (PyVal.str "Grade-1") resp
        = get_kanji_list_by_category (PyVal.str "grade-1") resp ∧
      get_kanji_list_by_category (PyVal.str "  grade-1  ") resp
        = get_kanji_list_by_category (PyVal.str "grade-1") resp) ∧
    kanjiListEndpoint (pyCleanCat (PyVal.str "Grade-1")) = "/kanji/grade-1" := by
  refine ⟨normalizeCategory_idem, by decide, by decide, by decide, ?_, by decide⟩
  intro resp
  have h1 : pyCleanCat (PyVal.str "Grade-1") = "grade-1" := by decide
  have h2 : pyCleanCat (PyVal.str "grade-1") = "grade-1" := by decide
  have h3 : pyCleanCat (PyVal.str "  grade-1  ") = "grade-1" := by decide
  have e : ∀ v : PyVal, pyCleanCat v = "grade-1" →
      get_kanji_list_by_category v resp
        = (match fetch_kanji_list "grade-1" resp with
           | (some l, n) => (ToolResult.ok (jStrArr l), n)
           | (Option.none, n) =>
             (ToolResult.executionError (categoryFailMsg "grade-1"), n)) := by
    intro v hv
    simp only [get_kanji_list_by_category, hv]
    rw [if_neg (by decide : ¬("grade-1" = ""))]
  rw [e _ h1, e _ h2, e _ h3]
  exact ⟨rfl, rfl⟩
